import Mathlib

/-!
Shallow embedding of the task-creation core of `tasktrackerwebui/webui.py`
(the `RepeatInfo` enumeration, `_get_repeat_info`, and the validation /
translation part of `TaskTrackerWebUI.post_add_task`).

Python exceptions are modelled by the `PyError` type; the distinction
between the kinds matters because `post_add_task` converts some underlying
exceptions into `WebUIError` and lets others propagate.  The final
`requests.post` network call (webui.py lines 184-188) is outside the pure
core and is not modelled: the embedding stops at the `jsondata` payload the
code hands to it.
-/

namespace TaskTracker

/-- Python exception values as they leave `post_add_task`:
`webUIError` is the `WebUIError` subclass raised by the validator,
`runtimeError` a plain `RuntimeError`, and `valueError` / `attributeError`
are the built-in exceptions when they escape uncaught. -/
inductive PyError where
  | webUIError : String → PyError
  | runtimeError : String → PyError
  | valueError : String → PyError
  | attributeError : String → PyError
deriving DecidableEq, Repr

deriving instance DecidableEq for Except

/-- `class RepeatInfo(IntEnum)` of webui.py lines 40-49. -/
inductive RepeatInfo where
  | NO_REPEAT
  | MONTHLY
  | MONTHLY_DAY
  | SPECIFIED_DAYS
  | WITH_INTERVAL
deriving DecidableEq, Repr

/-- The integer value of each `RepeatInfo` member (webui.py lines 45-49);
this is the number the `IntEnum` serializes to in the JSON payload. -/
def RepeatInfo.toNat : RepeatInfo → Nat
  | .NO_REPEAT => 0
  | .MONTHLY => 1
  | .MONTHLY_DAY => 2
  | .SPECIFIED_DAYS => 3
  | .WITH_INTERVAL => 4

/-- `_get_repeat_info` (webui.py lines 68-86): a chain of `==` comparisons
against the seven keywords, with `raise RuntimeError("Wrong repeat info!")`
as the fall-through.  The argument is an `Option String` because the caller
passes `data.get(...)`, which may be `None` (and `None == "daily"` is
`False` in Python, so `none` also reaches the fall-through). -/
def _get_repeat_info (info : Option String) : Except PyError (RepeatInfo × Int) :=
  if info = some "daily" then .ok (.SPECIFIED_DAYS, 1234567)
  else if info = some "weekly" then .ok (.WITH_INTERVAL, 7)
  else if info = some "weekdays" then .ok (.SPECIFIED_DAYS, 12345)
  else if info = some "biweekly" then .ok (.WITH_INTERVAL, 14)
  else if info = some "once" then .ok (.NO_REPEAT, 0)
  else if info = some "monthly" then .ok (.MONTHLY, 0)
  else if info = some "four_weeks" then .ok (.WITH_INTERVAL, 7 * 4)
  else .error (.runtimeError "Wrong repeat info!")

/-- Split a list of characters at every occurrence of `c`, keeping empty
groups, matching Python `str.split` with an explicit one-character
separator (e.g. `"".split("-") == [""]`, `"a--b".split("-") == ["a","","b"]`). -/
def splitCharList (c : Char) : List Char → List (List Char)
  | [] => [[]]
  | a :: rest =>
    match splitCharList c rest with
    | [] => if a = c then [[], [a]] else [[a]]
    | g :: gs => if a = c then [] :: g :: gs else (a :: g) :: gs

/-- Python `s.split(sep)` for a one-character separator `c` (the source
only splits on `"-"` and `":"`). -/
def splitOnChar (c : Char) (s : String) : List String :=
  (splitCharList c s.toList).map (fun l => String.mk l)

/-- Model of Python `int(str)`: optional surrounding whitespace, an
optional single `+`/`-` sign, then one or more decimal digits; anything
else raises `ValueError`.  (CPython additionally accepts underscore digit
grouping and non-ASCII digits; no input exercised here uses those.) -/
def pyInt (s : String) : Option Int :=
  let cs := (((s.toList.dropWhile Char.isWhitespace).reverse.dropWhile
      Char.isWhitespace).reverse)
  match cs with
  | [] => none
  | c :: rest =>
    let signed : Bool × List Char :=
      if c = '-' then (true, rest)
      else if c = '+' then (false, rest)
      else (false, c :: rest)
    match signed with
    | (neg, digits) =>
      if digits ≠ [] ∧ digits.all Char.isDigit then
        let n : Nat := digits.foldl (fun acc d => acc * 10 + (d.toNat - 48)) 0
        some (if neg then -(n : Int) else (n : Int))
      else none

/-- The list comprehension `[int(x) for x in ...]`: all components must
parse or the whole comprehension raises `ValueError` (modelled as `none`). -/
def intList : List String → Option (List Int)
  | [] => some []
  | s :: rest => (pyInt s).bind (fun n => (intList rest).map (fun ns => n :: ns))

/-- `data.get(...)` for the four form fields `post_add_task` reads; a
missing key yields `none` (Python `None`).  Other keys of the request
dict are never read, so they are not modelled. -/
structure RawTaskInput where
  task_start : Option String
  task_time : Option String
  task_name : Option String
  repeat_info : Option String
deriving DecidableEq, Repr

/-- The first stage of `post_add_task` (webui.py lines 136-147):
`start_date = [int(x) for x in data.get(START).split("-")]`, a length-3
check, and `except ValueError: raise WebUIError("Invalid value for start
date!")`.  A missing key makes `data.get(...)` return `None`, whose
`.split` raises `AttributeError`; that exception is NOT in this stage's
`except` clause, so it propagates as-is. -/
def parse_start_date (raw : Option String) : Except PyError (Int × Int × Int) :=
  match raw with
  | none => .error (.attributeError "NoneType object has no attribute split")
  | some s =>
    match intList (splitOnChar '-' s) with
    | none => .error (.webUIError "Invalid value for start date!")
    | some [y, m, d] => .ok (y, m, d)
    | some _ => .error (.webUIError "Invalid value for start date!")

/-- The second stage of `post_add_task` (webui.py lines 148-158): as the
date stage but splitting on `":"`, requiring 2 components, and catching
`(ValueError, AttributeError)` — so here a missing key IS converted to
`WebUIError("Invalid value for start time!")`. -/
def parse_start_time (raw : Option String) : Except PyError (Int × Int) :=
  match raw with
  | none => .error (.webUIError "Invalid value for start time!")
  | some s =>
    match intList (splitOnChar ':' s) with
    | none => .error (.webUIError "Invalid value for start time!")
    | some [h, mi] => .ok (h, mi)
    | some _ => .error (.webUIError "Invalid value for start time!")

/-- Gregorian leap-year test used by Python `datetime` range checks. -/
def isLeap (y : Int) : Bool :=
  (y % 4 = 0 && y % 100 ≠ 0) || y % 400 = 0

/-- Number of days in month `m` of year `y` (Python `calendar` rules). -/
def daysInMonth (y m : Int) : Int :=
  if m = 2 then (if isLeap y then 29 else 28)
  else if m = 4 ∨ m = 6 ∨ m = 9 ∨ m = 11 then 30
  else 31

/-- The argument checks of `datetime.datetime(year, month, day, hour,
minute)` (webui.py lines 164-170): field ranges checked in the order
year, month, day, hour, minute, raising `ValueError` with the CPython
message on the first violation. -/
def datetimeCheck (y m d h mi : Int) : Except String Unit :=
  if y < 1 ∨ 9999 < y then .error ("year " ++ toString y ++ " is out of range")
  else if m < 1 ∨ 12 < m then .error "month must be in 1..12"
  else if d < 1 ∨ daysInMonth y m < d then .error "day is out of range for month"
  else if h < 0 ∨ 23 < h then .error "hour must be in 0..23"
  else if mi < 0 ∨ 59 < mi then .error "minute must be in 0..59"
  else .ok ()

/-- The `jsondata` dict of webui.py lines 177-182, the outbound payload.
`taskRepeatType` holds the `RepeatInfo` member, which being an `IntEnum`
serializes to `RepeatInfo.toNat` on the wire. -/
structure Payload where
  taskName : String
  taskStart : Int
  taskRepeatInfo : Int
  taskRepeatType : RepeatInfo
deriving DecidableEq, Repr

/-- The validation / translation part of `post_add_task` (webui.py lines
132-182).  `mk` stands for `time.mktime ∘ timetuple`: the C-library
conversion of a local calendar date-time (seconds field 0, as produced by
`datetime(...).timetuple()`) to Unix epoch seconds; it depends on the
ambient process time zone, so it is a parameter of the embedding.
The trailing `requests.post` (lines 184-188) is external I/O and not part
of the embedded core. -/
def post_add_task (mk : Int → Int → Int → Int → Int → Int)
    (data : RawTaskInput) : Except PyError Payload :=
  match parse_start_date data.task_start with
  | .error e => .error e
  | .ok (y, m, d) =>
    match parse_start_time data.task_time with
    | .error e => .error e
    | .ok (h, mi) =>
      if data.task_name.getD "" = "" then
        .error (.webUIError "No task name!")
      else
        match datetimeCheck y m d h mi with
        | .error msg => .error (.valueError msg)
        | .ok _ =>
          let time_t := mk y m d h mi
          match _get_repeat_info data.repeat_info with
          | .error e => .error e
          | .ok (rt, ri) =>
            .ok { taskName := data.task_name.getD ""
                  taskStart := time_t
                  taskRepeatInfo := ri
                  taskRepeatType := rt }

/-- Days from 1970-01-01 to the civil date `y-m-d` (proleptic Gregorian);
used to build a concrete instance of the local-time conversion for
witnesses. -/
def daysFromCivil (y m d : Int) : Int :=
  let y2 := if m ≤ 2 then y - 1 else y
  let era := (if 0 ≤ y2 then y2 else y2 - 399) / 400
  let yoe := y2 - era * 400
  let mp := (m + 9) % 12
  let doy := (153 * mp + 2) / 5 + d - 1
  let doe := yoe * 365 + yoe / 4 - yoe / 100 + doy
  era * 146097 + doe - 719468

/-- The `mk` parameter of `post_add_task` instantiated for a process
running with TZ=UTC: epoch seconds of `y-m-d h:mi:00`. -/
def mktimeUTC (y m d h mi : Int) : Int :=
  daysFromCivil y m d * 86400 + h * 3600 + mi * 60

/-- `sub` occurs as a contiguous substring of `s` (used to state that an
error description names, or fails to name, an offending value). -/
def strMentions (s sub : String) : Prop :=
  sub.toList <:+: s.toList

instance (s sub : String) : Decidable (strMentions s sub) :=
  List.decidableInfix sub.toList s.toList

/-- The structural-failure condition of the spec for `task_start`: the
dash-split does not have exactly 3 components, or some component is not
integer-parseable. -/
def dateMalformed (s : String) : Prop :=
  (splitOnChar '-' s).length ≠ 3 ∨ ∃ c ∈ splitOnChar '-' s, pyInt c = none

/-- The structural-failure condition of the spec for `task_time`: the
colon-split does not have exactly 2 components, or some component is not
integer-parseable. -/
def timeMalformed (s : String) : Prop :=
  (splitOnChar ':' s).length ≠ 2 ∨ ∃ c ∈ splitOnChar ':' s, pyInt c = none

instance (s : String) : Decidable (dateMalformed s) := by
  unfold dateMalformed; infer_instance

instance (s : String) : Decidable (timeMalformed s) := by
  unfold timeMalformed; infer_instance

theorem intList_length {l : List String} {l2 : List Int}
    (h : intList l = some l2) : l2.length = l.length := by
  induction l generalizing l2 with
  | nil =>
    simp only [intList, Option.some.injEq] at h
    subst h; rfl
  | cons a rest ih =>
    simp only [intList] at h
    cases hpa : pyInt a with
    | none => rw [hpa] at h; simp at h
    | some n =>
      rw [hpa] at h
      cases hrest : intList rest with
      | none => rw [hrest] at h; simp at h
      | some ns =>
        rw [hrest] at h
        have h2 : some (n :: ns) = some l2 := h
        cases h2
        simp [ih hrest]

theorem intList_none_of_mem {l : List String} {s : String}
    (hmem : s ∈ l) (hs : pyInt s = none) : intList l = none := by
  induction l with
  | nil => cases hmem
  | cons a rest ih =>
    rcases List.mem_cons.mp hmem with h | h
    · subst h; simp [intList, hs]
    · cases hpa : pyInt a <;> simp [intList, hpa, ih h]

theorem parse_start_date_malformed {s : String} (h : dateMalformed s) :
    parse_start_date (some s) = .error (.webUIError "Invalid value for start date!") := by
  cases hil : intList (splitOnChar '-' s) with
  | none => simp [parse_start_date, hil]
  | some l =>
    have hlen3 : l.length = (splitOnChar '-' s).length := intList_length hil
    rcases h with hlen | ⟨c, hc, hpc⟩
    · simp only [parse_start_date, hil]
      rcases l with _ | ⟨a, _ | ⟨b, _ | ⟨c, _ | ⟨d, rest⟩⟩⟩⟩
      · rfl
      · rfl
      · rfl
      · exact absurd hlen3.symm hlen
      · rfl
    · exact absurd hil (by rw [intList_none_of_mem hc hpc]; simp)

theorem parse_start_time_malformed {s : String} (h : timeMalformed s) :
    parse_start_time (some s) = .error (.webUIError "Invalid value for start time!") := by
  cases hil : intList (splitOnChar ':' s) with
  | none => simp [parse_start_time, hil]
  | some l =>
    have hlen2 : l.length = (splitOnChar ':' s).length := intList_length hil
    rcases h with hlen | ⟨c, hc, hpc⟩
    · simp only [parse_start_time, hil]
      rcases l with _ | ⟨a, _ | ⟨b, _ | ⟨c, rest⟩⟩⟩
      · rfl
      · rfl
      · exact absurd hlen2.symm hlen
      · rfl
    · exact absurd hil (by rw [intList_none_of_mem hc hpc]; simp)

theorem post_add_task_date_error (mk : Int → Int → Int → Int → Int → Int)
    (data : RawTaskInput) (e : PyError)
    (hd : parse_start_date data.task_start = .error e) :
    post_add_task mk data = .error e := by
  simp [post_add_task, hd]

theorem post_add_task_time_error (mk : Int → Int → Int → Int → Int → Int)
    (data : RawTaskInput) (y m d : Int) (e : PyError)
    (hd : parse_start_date data.task_start = .ok (y, m, d))
    (ht : parse_start_time data.task_time = .error e) :
    post_add_task mk data = .error e := by
  simp [post_add_task, hd, ht]

theorem post_add_task_name_error (mk : Int → Int → Int → Int → Int → Int)
    (data : RawTaskInput) (y m d h mi : Int)
    (hd : parse_start_date data.task_start = .ok (y, m, d))
    (ht : parse_start_time data.task_time = .ok (h, mi))
    (hn : data.task_name.getD "" = "") :
    post_add_task mk data = .error (.webUIError "No task name!") := by
  simp [post_add_task, hd, ht, hn]

theorem post_add_task_datetime_error (mk : Int → Int → Int → Int → Int → Int)
    (data : RawTaskInput) (y m d h mi : Int) (msg : String)
    (hd : parse_start_date data.task_start = .ok (y, m, d))
    (ht : parse_start_time data.task_time = .ok (h, mi))
    (hn : data.task_name.getD "" ≠ "")
    (hc : datetimeCheck y m d h mi = .error msg) :
    post_add_task mk data = .error (.valueError msg) := by
  simp [post_add_task, hd, ht, hn, hc]

theorem post_add_task_repeat_error (mk : Int → Int → Int → Int → Int → Int)
    (data : RawTaskInput) (y m d h mi : Int) (e : PyError)
    (hd : parse_start_date data.task_start = .ok (y, m, d))
    (ht : parse_start_time data.task_time = .ok (h, mi))
    (hn : data.task_name.getD "" ≠ "")
    (hc : datetimeCheck y m d h mi = .ok ())
    (hr : _get_repeat_info data.repeat_info = .error e) :
    post_add_task mk data = .error e := by
  simp [post_add_task, hd, ht, hn, hc, hr]

theorem post_add_task_ok (mk : Int → Int → Int → Int → Int → Int)
    (data : RawTaskInput) (y m d h mi : Int) (rt : RepeatInfo) (ri : Int)
    (hd : parse_start_date data.task_start = .ok (y, m, d))
    (ht : parse_start_time data.task_time = .ok (h, mi))
    (hn : data.task_name.getD "" ≠ "")
    (hc : datetimeCheck y m d h mi = .ok ())
    (hr : _get_repeat_info data.repeat_info = .ok (rt, ri)) :
    post_add_task mk data =
      .ok ⟨data.task_name.getD "", mk y m d h mi, ri, rt⟩ := by
  simp [post_add_task, hd, ht, hn, hc, hr]

theorem get_repeat_info_unknown {s : String}
    (hs : s ∉ ["daily", "weekly", "weekdays", "biweekly", "once", "monthly",
      "four_weeks"]) :
    _get_repeat_info (some s) = .error (.runtimeError "Wrong repeat info!") := by
  simp only [List.mem_cons, List.not_mem_nil, or_false, not_or] at hs
  obtain ⟨h1, h2, h3, h4, h5, h6, h7⟩ := hs
  simp [_get_repeat_info, h1, h2, h3, h4, h5, h6, h7]

/-- C1: each of the 7 repeat keywords maps to exactly the (kind, parameter)
pair of the spec table under exact case-sensitive comparison, and every
other string makes `_get_repeat_info` fail (with the `RuntimeError` raised
at the fall-through) instead of returning a pair. -/
theorem c1_repeat_keyword_table :
    (_get_repeat_info (some "daily") = .ok (.SPECIFIED_DAYS, 1234567))
  ∧ (_get_repeat_info (some "weekly") = .ok (.WITH_INTERVAL, 7))
  ∧ (_get_repeat_info (some "weekdays") = .ok (.SPECIFIED_DAYS, 12345))
  ∧ (_get_repeat_info (some "biweekly") = .ok (.WITH_INTERVAL, 14))
  ∧ (_get_repeat_info (some "once") = .ok (.NO_REPEAT, 0))
  ∧ (_get_repeat_info (some "monthly") = .ok (.MONTHLY, 0))
  ∧ (_get_repeat_info (some "four_weeks") = .ok (.WITH_INTERVAL, 28))
  ∧ (∀ s : String,
      s ∉ ["daily", "weekly", "weekdays", "biweekly", "once", "monthly",
        "four_weeks"] →
      _get_repeat_info (some s) = .error (.runtimeError "Wrong repeat info!")) :=
  ⟨rfl, rfl, rfl, rfl, rfl, rfl, rfl, fun _ hs => get_repeat_info_unknown hs⟩

/-- C1 witness: the ∀-part of the table theorem applied at the concrete
non-keyword "bogus". -/
theorem c1_witness :
    ("bogus" ∉ ["daily", "weekly", "weekdays", "biweekly", "once", "monthly",
      "four_weeks"])
  ∧ _get_repeat_info (some "bogus") = .error (.runtimeError "Wrong repeat info!") :=
  ⟨by decide, c1_repeat_keyword_table.2.2.2.2.2.2.2 "bogus" (by decide)⟩

/-- C2 counterexample: on the impossible date 2024-02-30 (all other fields
valid) `post_add_task` fails with the uncaught `ValueError` of the
`datetime` constructor, not with the `WebUIError` for an invalid start
date: the composition step sits outside every try/except block. -/
theorem c2_counterexample :
    post_add_task mktimeUTC
      ⟨some "2024-2-30", some "9:30", some "plants", some "once"⟩
      = .error (.valueError "day is out of range for month")
  ∧ (Except.error (PyError.valueError "day is out of range for month")
      : Except PyError Payload)
      ≠ .error (.webUIError "Invalid value for start date!") :=
  ⟨rfl, by decide⟩

/-- C2 (amended): for an input whose `task_start` parses into 3 integers
denoting an impossible calendar date (time, name valid), the `ValueError`
of the date-composition primitive propagates unconverted; the failure is
NOT converted into the invalid-start-date `WebUIError`. -/
theorem c2_datetime_error_propagates (mk : Int → Int → Int → Int → Int → Int)
    (data : RawTaskInput) (y m d h mi : Int) (msg : String)
    (hd : parse_start_date data.task_start = .ok (y, m, d))
    (ht : parse_start_time data.task_time = .ok (h, mi))
    (hn : data.task_name.getD "" ≠ "")
    (hc : datetimeCheck y m d h mi = .error msg) :
    post_add_task mk data = .error (.valueError msg)
  ∧ post_add_task mk data ≠ .error (.webUIError "Invalid value for start date!") := by
  have h1 := post_add_task_datetime_error mk data y m d h mi msg hd ht hn hc
  refine ⟨h1, ?_⟩
  rw [h1]
  simp

/-- C2 witness: the amended theorem applied at the concrete 2024-02-30
input. -/
theorem c2_witness :
    datetimeCheck 2024 2 30 9 30 = .error "day is out of range for month"
  ∧ post_add_task mktimeUTC
      ⟨some "2024-2-30", some "9:30", some "water", some "once"⟩
      = .error (.valueError "day is out of range for month") :=
  ⟨rfl,
    (c2_datetime_error_propagates mktimeUTC
      ⟨some "2024-2-30", some "9:30", some "water", some "once"⟩
      2024 2 30 9 30 "day is out of range for month"
      rfl rfl (by decide) rfl).1⟩

/-- C3 counterexample: with the `task_start` key absent (all other fields
valid), `post_add_task` raises the `AttributeError` of `None.split`, which
the date stage's `except ValueError` clause does not catch — so the
failure is not the invalid-start-date `WebUIError` the claim requires. -/
theorem c3_counterexample :
    post_add_task mktimeUTC ⟨none, some "9:30", some "water", some "once"⟩
      = .error (.attributeError "NoneType object has no attribute split")
  ∧ (Except.error (PyError.attributeError "NoneType object has no attribute split")
      : Except PyError Payload)
      ≠ .error (.webUIError "Invalid value for start date!") :=
  ⟨rfl, by decide⟩

/-- C3 (amended): a present `task_start` that splits into other than 3
components or has a non-integer component fails with the
invalid-start-date `WebUIError`; an absent `task_start`, however, raises
an uncaught `AttributeError` instead of that error kind. -/
theorem c3_start_date_errors (mk : Int → Int → Int → Int → Int → Int)
    (data : RawTaskInput) :
    (∀ s, data.task_start = some s → dateMalformed s →
        post_add_task mk data = .error (.webUIError "Invalid value for start date!"))
  ∧ (data.task_start = none →
        post_add_task mk data
          = .error (.attributeError "NoneType object has no attribute split")) := by
  constructor
  · intro s hs hbad
    apply post_add_task_date_error
    rw [hs]
    exact parse_start_date_malformed hbad
  · intro hs
    apply post_add_task_date_error
    rw [hs]
    rfl

/-- C3 witness: the malformed branch applied at the 2-component start date
"2024-3". -/
theorem c3_witness :
    dateMalformed "2024-3"
  ∧ post_add_task mktimeUTC ⟨some "2024-3", some "9:30", some "water", some "once"⟩
      = .error (.webUIError "Invalid value for start date!") :=
  ⟨by decide,
    (c3_start_date_errors mktimeUTC
      ⟨some "2024-3", some "9:30", some "water", some "once"⟩).1
      "2024-3" rfl (by decide)⟩

/-- C4 counterexample: the unknown keyword "bogus" (all other fields valid)
fails with `RuntimeError("Wrong repeat info!")`, whose fixed description
does not mention "bogus": the error does not name the offending value. -/
theorem c4_counterexample :
    post_add_task mktimeUTC
      ⟨some "2024-3-15", some "9:30", some "water", some "bogus"⟩
      = .error (.runtimeError "Wrong repeat info!")
  ∧ ¬ strMentions "Wrong repeat info!" "bogus" :=
  ⟨rfl, by decide⟩

/-- C4 (amended): every `repeat_info` outside the 7-keyword table (other
fields valid) fails with the unknown-keyword error and no payload is
produced; the error description, however, is the fixed string
"Wrong repeat info!" and does not name the offending value. -/
theorem c4_unknown_repeat_keyword (mk : Int → Int → Int → Int → Int → Int)
    (data : RawTaskInput) (y m d h mi : Int) (s : String)
    (hd : parse_start_date data.task_start = .ok (y, m, d))
    (ht : parse_start_time data.task_time = .ok (h, mi))
    (hn : data.task_name.getD "" ≠ "")
    (hc : datetimeCheck y m d h mi = .ok ())
    (hrs : data.repeat_info = some s)
    (hs : s ∉ ["daily", "weekly", "weekdays", "biweekly", "once", "monthly",
      "four_weeks"]) :
    post_add_task mk data = .error (.runtimeError "Wrong repeat info!")
  ∧ ∀ p : Payload, post_add_task mk data ≠ .ok p := by
  have h1 : post_add_task mk data = .error (.runtimeError "Wrong repeat info!") := by
    apply post_add_task_repeat_error mk data y m d h mi _ hd ht hn hc
    rw [hrs]
    exact get_repeat_info_unknown hs
  refine ⟨h1, ?_⟩
  intro p hp
  rw [h1] at hp
  exact Except.noConfusion hp

/-- C4 witness: the amended theorem applied at the concrete keyword
"bogus". -/
theorem c4_witness :
    ("bogus" ∉ ["daily", "weekly", "weekdays", "biweekly", "once", "monthly",
      "four_weeks"])
  ∧ post_add_task mktimeUTC
      ⟨some "2024-3-15", some "9:30", some "water", some "bogus"⟩
      = .error (.runtimeError "Wrong repeat info!") :=
  ⟨by decide,
    (c4_unknown_repeat_keyword mktimeUTC
      ⟨some "2024-3-15", some "9:30", some "water", some "bogus"⟩
      2024 3 15 9 30 "bogus" rfl rfl (by decide) rfl rfl (by decide)).1⟩

/-- C5: for well-formed input (3-integer date accepted by the datetime
range checks, 2-integer time, non-empty name, known keyword) the payload
has exactly the fields taskName (the raw name), taskStart (the local-time
epoch-seconds conversion of year-month-day hour:minute:00), taskRepeatInfo
(the rule parameter) and taskRepeatType (the kind, whose IntEnum wire
ordinals are 0=NO_REPEAT 1=MONTHLY 2=MONTHLY_DAY 3=SPECIFIED_DAYS
4=WITH_INTERVAL). -/
theorem c5_wellformed_payload (mk : Int → Int → Int → Int → Int → Int)
    (data : RawTaskInput) (y m d h mi : Int) (nm : String)
    (rt : RepeatInfo) (ri : Int)
    (hd : parse_start_date data.task_start = .ok (y, m, d))
    (ht : parse_start_time data.task_time = .ok (h, mi))
    (hn : data.task_name = some nm) (hne : nm ≠ "")
    (hc : datetimeCheck y m d h mi = .ok ())
    (hr : _get_repeat_info data.repeat_info = .ok (rt, ri)) :
    post_add_task mk data =
      .ok { taskName := nm, taskStart := mk y m d h mi,
            taskRepeatInfo := ri, taskRepeatType := rt }
  ∧ (RepeatInfo.toNat .NO_REPEAT = 0 ∧ RepeatInfo.toNat .MONTHLY = 1
     ∧ RepeatInfo.toNat .MONTHLY_DAY = 2 ∧ RepeatInfo.toNat .SPECIFIED_DAYS = 3
     ∧ RepeatInfo.toNat .WITH_INTERVAL = 4) := by
  have h0 : data.task_name.getD "" ≠ "" := by rw [hn]; exact hne
  have h1 := post_add_task_ok mk data y m d h mi rt ri hd ht h0 hc hr
  rw [hn] at h1
  exact ⟨h1, rfl, rfl, rfl, rfl, rfl⟩

/-- C5 witness: the spec's end-to-end "weekly" example, with the ambient
local-time conversion instantiated at TZ=UTC. -/
theorem c5_witness :
    datetimeCheck 2024 3 15 9 30 = .ok ()
  ∧ post_add_task mktimeUTC
      ⟨some "2024-3-15", some "9:30", some "Water plants", some "weekly"⟩
      = .ok { taskName := "Water plants", taskStart := mktimeUTC 2024 3 15 9 30,
              taskRepeatInfo := 7, taskRepeatType := .WITH_INTERVAL }
  ∧ RepeatInfo.toNat .WITH_INTERVAL = 4 :=
  ⟨rfl,
    (c5_wellformed_payload mktimeUTC
      ⟨some "2024-3-15", some "9:30", some "Water plants", some "weekly"⟩
      2024 3 15 9 30 "Water plants" .WITH_INTERVAL 7
      rfl rfl rfl (by decide) rfl rfl).1,
    rfl⟩

/-- C6: an absent `task_time`, or one splitting into other than 2
components, or with a non-integer component (with `task_start` valid),
fails with the invalid-start-time `WebUIError` — the time stage catches
both `ValueError` and `AttributeError`, so the missing-key case surfaces
as the same error kind as the malformed case. -/
theorem c6_invalid_start_time (mk : Int → Int → Int → Int → Int → Int)
    (data : RawTaskInput) (y m d : Int)
    (hd : parse_start_date data.task_start = .ok (y, m, d))
    (ht : data.task_time = none
        ∨ ∃ s, data.task_time = some s ∧ timeMalformed s) :
    post_add_task mk data = .error (.webUIError "Invalid value for start time!") := by
  apply post_add_task_time_error mk data y m d _ hd
  rcases ht with h | ⟨s, hs, hbad⟩
  · rw [h]
    rfl
  · rw [hs]
    exact parse_start_time_malformed hbad

/-- C6 witness: the theorem applied with `task_time` absent. -/
theorem c6_witness :
    parse_start_date (some "2024-3-15") = .ok (2024, 3, 15)
  ∧ post_add_task mktimeUTC ⟨some "2024-3-15", none, some "water", some "once"⟩
      = .error (.webUIError "Invalid value for start time!") :=
  ⟨rfl,
    c6_invalid_start_time mktimeUTC
      ⟨some "2024-3-15", none, some "water", some "once"⟩
      2024 3 15 rfl (Or.inl rfl)⟩

/-- C7: an absent `task_name` key or an empty `task_name` value (with
`task_start` and `task_time` valid) fails with the missing-task-name
`WebUIError` — both are falsy for `if not data.get(...)`. -/
theorem c7_missing_task_name (mk : Int → Int → Int → Int → Int → Int)
    (data : RawTaskInput) (y m d h mi : Int)
    (hd : parse_start_date data.task_start = .ok (y, m, d))
    (ht : parse_start_time data.task_time = .ok (h, mi))
    (hn : data.task_name = none ∨ data.task_name = some "") :
    post_add_task mk data = .error (.webUIError "No task name!") := by
  apply post_add_task_name_error mk data y m d h mi hd ht
  rcases hn with h | h <;> rw [h] <;> rfl

/-- C7 witness: the theorem applied with `task_name` absent. -/
theorem c7_witness :
    parse_start_time (some "9:30") = .ok (9, 30)
  ∧ post_add_task mktimeUTC ⟨some "2024-3-15", some "9:30", none, some "once"⟩
      = .error (.webUIError "No task name!") :=
  ⟨rfl,
    c7_missing_task_name mktimeUTC
      ⟨some "2024-3-15", some "9:30", none, some "once"⟩
      2024 3 15 9 30 rfl rfl (Or.inl rfl)⟩

/-- C8: the four validation stages run in the fixed order start date →
start time → task name → repeat keyword; the first failing stage's error
is the result regardless of the later fields, and a failing run never
yields a payload. -/
theorem c8_first_failing_stage (mk : Int → Int → Int → Int → Int → Int)
    (data : RawTaskInput) :
    (∀ e, parse_start_date data.task_start = .error e →
        post_add_task mk data = .error e)
  ∧ (∀ y m d e, parse_start_date data.task_start = .ok (y, m, d) →
        parse_start_time data.task_time = .error e →
        post_add_task mk data = .error e)
  ∧ (∀ y m d h mi, parse_start_date data.task_start = .ok (y, m, d) →
        parse_start_time data.task_time = .ok (h, mi) →
        data.task_name.getD "" = "" →
        post_add_task mk data = .error (.webUIError "No task name!"))
  ∧ (∀ y m d h mi e, parse_start_date data.task_start = .ok (y, m, d) →
        parse_start_time data.task_time = .ok (h, mi) →
        data.task_name.getD "" ≠ "" →
        datetimeCheck y m d h mi = .ok () →
        _get_repeat_info data.repeat_info = .error e →
        post_add_task mk data = .error e)
  ∧ (∀ e, post_add_task mk data = .error e →
        ∀ p : Payload, post_add_task mk data ≠ .ok p) := by
  refine ⟨?_, ?_, ?_, ?_, ?_⟩
  · exact fun e hd => post_add_task_date_error mk data e hd
  · exact fun y m d e hd ht => post_add_task_time_error mk data y m d e hd ht
  · exact fun y m d h mi hd ht hn => post_add_task_name_error mk data y m d h mi hd ht hn
  · exact fun y m d h mi e hd ht hn hc hr =>
      post_add_task_repeat_error mk data y m d h mi e hd ht hn hc hr
  · intro e he p hp
    rw [he] at hp
    exact Except.noConfusion hp

/-- C8 witness: a run failing at the time stage (name and keyword also
invalid) produces exactly the time-stage error. -/
theorem c8_witness :
    parse_start_time (some "nine") = .error (.webUIError "Invalid value for start time!")
  ∧ post_add_task mktimeUTC ⟨some "2024-3-15", some "nine", none, some "bogus"⟩
      = .error (.webUIError "Invalid value for start time!") :=
  ⟨rfl,
    (c8_first_failing_stage mktimeUTC
      ⟨some "2024-3-15", some "nine", none, some "bogus"⟩).2.1
      2024 3 15 (.webUIError "Invalid value for start time!") rfl rfl⟩

/-- C9 counterexample: the date error for raw value "20x4-3-15" and the
time error for raw value "9:30:00" are the fixed strings "Invalid value
for start date!" / "Invalid value for start time!", which mention neither
the offending raw value nor the component count. -/
theorem c9_counterexample :
    (post_add_task mktimeUTC
        ⟨some "20x4-3-15", some "9:30", some "water", some "once"⟩
        = .error (.webUIError "Invalid value for start date!")
      ∧ ¬ strMentions "Invalid value for start date!" "20x4-3-15")
  ∧ (post_add_task mktimeUTC
        ⟨some "2024-3-15", some "9:30:00", some "water", some "once"⟩
        = .error (.webUIError "Invalid value for start time!")
      ∧ ¬ strMentions "Invalid value for start time!" "9:30:00") :=
  ⟨⟨rfl, by decide⟩, ⟨rfl, by decide⟩⟩

/-- C9 (amended): a validation failure's description is a fixed string
naming only the failing field — "Invalid value for start date!" for every
malformed `task_start` and "Invalid value for start time!" for every
malformed `task_time` — independent of the raw value and of the component
count (those appear only in the logged underlying exception). -/
theorem c9_fixed_error_descriptions (mk : Int → Int → Int → Int → Int → Int)
    (data : RawTaskInput) :
    (∀ s, data.task_start = some s → dateMalformed s →
        post_add_task mk data = .error (.webUIError "Invalid value for start date!"))
  ∧ (∀ y m d s, parse_start_date data.task_start = .ok (y, m, d) →
        data.task_time = some s → timeMalformed s →
        post_add_task mk data = .error (.webUIError "Invalid value for start time!")) := by
  constructor
  · intro s hs hbad
    apply post_add_task_date_error
    rw [hs]
    exact parse_start_date_malformed hbad
  · intro y m d s hd hs hbad
    apply post_add_task_time_error mk data y m d _ hd
    rw [hs]
    exact parse_start_time_malformed hbad

/-- C9 witness: two malformed start dates with different raw values yield
the identical fixed description. -/
theorem c9_witness :
    dateMalformed "20x4-3-15" ∧ dateMalformed "1-2"
  ∧ post_add_task mktimeUTC
      ⟨some "20x4-3-15", some "9:30", some "water", some "once"⟩
      = .error (.webUIError "Invalid value for start date!")
  ∧ post_add_task mktimeUTC
      ⟨some "1-2", some "9:30", some "water", some "once"⟩
      = .error (.webUIError "Invalid value for start date!") :=
  ⟨by decide, by decide,
    (c9_fixed_error_descriptions mktimeUTC
      ⟨some "20x4-3-15", some "9:30", some "water", some "once"⟩).1
      "20x4-3-15" rfl (by decide),
    (c9_fixed_error_descriptions mktimeUTC
      ⟨some "1-2", some "9:30", some "water", some "once"⟩).1
      "1-2" rfl (by decide)⟩

/-- C10: a whitespace-only (hence non-empty) `task_name` is truthy in
Python, so validation accepts it — no missing-task-name error — and the
payload's taskName is that whitespace string verbatim. -/
theorem c10_whitespace_name_accepted (mk : Int → Int → Int → Int → Int → Int)
    (data : RawTaskInput) (y m d h mi : Int) (nm : String)
    (rt : RepeatInfo) (ri : Int)
    (hd : parse_start_date data.task_start = .ok (y, m, d))
    (ht : parse_start_time data.task_time = .ok (h, mi))
    (hn : data.task_name = some nm)
    (_hw : nm.toList.all Char.isWhitespace = true)
    (hne : nm ≠ "")
    (hc : datetimeCheck y m d h mi = .ok ())
    (hr : _get_repeat_info data.repeat_info = .ok (rt, ri)) :
    post_add_task mk data ≠ .error (.webUIError "No task name!")
  ∧ post_add_task mk data =
      .ok { taskName := nm, taskStart := mk y m d h mi,
            taskRepeatInfo := ri, taskRepeatType := rt } := by
  have h0 : data.task_name.getD "" ≠ "" := by rw [hn]; exact hne
  have h1 := post_add_task_ok mk data y m d h mi rt ri hd ht h0 hc hr
  rw [hn] at h1
  have h2 : post_add_task mk data =
      .ok { taskName := nm, taskStart := mk y m d h mi,
            taskRepeatInfo := ri, taskRepeatType := rt } := h1
  refine ⟨?_, h2⟩
  rw [h2]
  simp

/-- C10 witness: the single-space name " " is accepted and appears
verbatim in the payload. -/
theorem c10_witness :
    (" " : String) ≠ ""
  ∧ (" " : String).toList.all Char.isWhitespace = true
  ∧ post_add_task mktimeUTC ⟨some "2024-3-15", some "9:30", some " ", some "once"⟩
      = .ok { taskName := " ", taskStart := mktimeUTC 2024 3 15 9 30,
              taskRepeatInfo := 0, taskRepeatType := .NO_REPEAT } :=
  ⟨by decide, by decide,
    (c10_whitespace_name_accepted mktimeUTC
      ⟨some "2024-3-15", some "9:30", some " ", some "once"⟩
      2024 3 15 9 30 " " .NO_REPEAT 0
      rfl rfl rfl (by decide) (by decide) (by decide) rfl).2⟩

end TaskTracker
